import Mathlib

/-!
Shallow embedding of the service-capacity-modeling core:
the replicated-log (Kafka) estimator, the replicated-store (Cassandra)
estimator, and the default regret scorer, translated from

  * service_capacity_modeling/models/org/netflix/kafka.py
  * service_capacity_modeling/models/org/netflix/cassandra.py
  * service_capacity_modeling/models/__init__.py

Python floats are embedded as rationals; Python `//` on non-negative
values is `Int.floor` of the quotient, `int(...)` is truncation toward
zero, `math.ceil` is `Int.ceil`, and builtin `round` is round-half-to-even.
External collaborators (square-root staffing, core normalization, the
zone sizer bin-packer, utilization normalization) that the visible code
only calls are either abstracted as oracle parameters or, where a claim
needs their shape, modelled from the specification.
-/

namespace SCM

/-! ## Numeric helpers -/

/-- Truncation toward zero, the semantics of Python `int(x)` on a float. -/
def truncInt (x : ℚ) : ℤ :=
  if 0 ≤ x then Int.floor x else Int.ceil x

/-- Round to the nearest integer, ties going to the even integer: the
semantics of Python builtin `round(x)`. -/
def roundHalfEven (x : ℚ) : ℤ :=
  let f := Int.floor x
  let r := x - (f : ℚ)
  if r < 1/2 then f
  else if 1/2 < r then f + 1
  else if Even f then f else f + 1

/-- Round to four decimal places, the semantics of Python `round(x, 4)`. -/
def round4 (x : ℚ) : ℚ :=
  (roundHalfEven (x * 10000) : ℚ) / 10000

/-- Modelled from the spec: `utils.next_n(x, n)` of the repository rounds a
requested size up to the next multiple of `n`. -/
def next_n (x : ℕ) (n : ℕ) : ℕ :=
  ((x + n - 1) / n) * n

/-- Modelled from the spec: `utils.next_power_of_2` of the repository rounds
a node count up to the next power of two (power-of-two cluster sizing). -/
def next_power_of_2 (x : ℕ) : ℕ :=
  2 ^ Nat.clog 2 x

/-- Bytes in one MiB (`MIB_IN_BYTES` of the interface module). -/
def MIB_IN_BYTES : ℕ := 1024 * 1024

/-- Bytes in one megabit (`MEGABIT_IN_BYTES` of the interface module). -/
def MEGABIT_IN_BYTES : ℕ := 1000 * 1000 / 8

/-! ## Data model (interface value objects used by the estimators) -/

/-- Statistical interval: low / mid / high point estimates and a confidence.
Derived arithmetic uses `mid`; the observed-utilization path uses `high`. -/
structure Interval where
  low : ℚ
  mid : ℚ
  high : ℚ
  confidence : ℚ := 1
deriving DecidableEq, Repr

/-- Constant interval at an integer point (`certain_int`). -/
def certain_int (x : ℤ) : Interval :=
  { low := x, mid := x, high := x }

/-- Constant interval at a rational point (`certain_float`). -/
def certain_float (x : ℚ) : Interval :=
  { low := x, mid := x, high := x }

/-- Uniform scaling of an interval by a scalar (`Interval.scale`). -/
def Interval.scale (i : Interval) (s : ℚ) : Interval :=
  { low := i.low * s, mid := i.mid * s, high := i.high * s,
    confidence := i.confidence }

/-- Local (ephemeral) drive attached to an instance shape. -/
structure LocalDrive where
  size_gib : ℕ
deriving DecidableEq, Repr

/-- Hardware instance shape. -/
structure Instance where
  cpu : ℕ
  ram_gib : ℚ
  drive : Option LocalDrive
  family : String
deriving DecidableEq, Repr

/-- Attachable cloud drive shape. -/
structure Drive where
  name : String
  seq_io_size_kib : ℕ
  max_size_gib : ℚ
deriving DecidableEq, Repr

/-- Query pattern: rates and sizes as statistical intervals. -/
structure QueryPattern where
  estimated_read_per_second : Interval
  estimated_write_per_second : Interval
  estimated_mean_read_size_bytes : Interval
  estimated_mean_write_size_bytes : Interval
deriving DecidableEq, Repr

/-- Data shape: regional state size and reserved memory. -/
structure DataShape where
  estimated_state_size_gib : Interval
  reserved_instance_app_mem_gib : ℚ
  reserved_instance_system_mem_gib : ℚ
deriving DecidableEq, Repr

/-- Observed utilization of one zonal cluster of the current deployment. -/
structure CurrentZoneClusterCapacity where
  cluster_instance : Option Instance
  cpu_utilization : Interval
  disk_utilization_gib : Interval
  network_utilization_mbps : Interval
deriving DecidableEq, Repr

/-- Current clusters of the deployment (zonal list). -/
structure CurrentClusters where
  zonal : List CurrentZoneClusterCapacity
deriving DecidableEq, Repr

/-- Workload desires handed to an estimator. Explainability-only metadata
(buffers, latency intervals not read by the embedded code paths) is omitted. -/
structure CapacityDesires where
  query_pattern : QueryPattern
  data_shape : DataShape
  current_clusters : Option CurrentClusters
  service_tier : ℕ
  reference_shape : Instance
deriving DecidableEq, Repr

/-- Region context passed by the harness (`context.zones_in_region`). -/
structure RegionContext where
  zones_in_region : ℕ
deriving DecidableEq, Repr

/-- Per-zone capacity requirement. Free-form context metadata is omitted. -/
structure CapacityRequirement where
  cpu_cores : Interval
  mem_gib : Interval
  disk_gib : Interval
  network_mbps : Interval
deriving DecidableEq, Repr

/-- Concrete zonal cluster descriptor returned by the zone sizer. -/
structure ZoneCluster where
  count : ℕ
  annual_cost : ℚ
  cluster_type : String
  cluster_params : List (String × ℤ)
deriving DecidableEq, Repr

/-- Requirements block of a capacity plan. -/
structure Requirements where
  zonal : List CapacityRequirement
  regional : List CapacityRequirement
  regrets : List String
deriving DecidableEq, Repr

/-- Clusters block of a capacity plan. -/
structure Clusters where
  annual_costs : List (String × ℚ)
  zonal : List ZoneCluster
  regional : List ZoneCluster
deriving DecidableEq, Repr

/-- Total annual cost of a clusters block: sum of the component costs. -/
def Clusters.total_annual_cost (c : Clusters) : ℚ :=
  (c.annual_costs.map (fun kv => kv.2)).sum

/-- Capacity plan: requirement plus concrete topology. -/
structure CapacityPlan where
  requirements : Requirements
  candidate_clusters : Clusters
deriving DecidableEq, Repr

/-! ## Replicated-log (Kafka) estimator (models/org/netflix/kafka.py) -/

/-- External collaborators called by the Kafka estimator (models/common.py,
outside the visible core), abstracted as oracle functions. Square-root
staffing and core normalization depend on the (concurrency-normalized)
query pattern and the target/reference shapes; utilization normalization
maps the observed current clusters onto the candidate instance. -/
structure KafkaExternals where
  sqrt_staffed_cores : QueryPattern → ℚ
  normalize_cores : ℚ → Instance → Instance → ℚ
  zonal_requirements_from_current : CurrentClusters → Instance → Instance → CapacityRequirement

/-- First zonal cluster of the current deployment, when present
(`_get_current_zonal_cluster`). -/
def _get_current_zonal_cluster (desires : CapacityDesires) :
    Option CurrentZoneClusterCapacity :=
  match desires.current_clusters with
  | none => none
  | some current => current.zonal.head?

/-- Whether the cluster's instance family matches the target family
(`_is_same_instance_family`); false when no cluster or no instance. -/
def _is_same_instance_family (cluster : Option CurrentZoneClusterCapacity)
    (target_family : String) : Bool :=
  match cluster with
  | none => false
  | some cl =>
    match cl.cluster_instance with
    | none => false
    | some ci => ci.family == target_family

/-- Replace the first zonal cluster's observed utilization intervals by
constant intervals at their high (peak) values, as `_estimate_kafka_requirement`
does before calling the utilization normalizer: for Kafka we want to use the
high value instead of the midpoint. -/
def peak_current_clusters (current_clusters : CurrentClusters) : CurrentClusters :=
  match current_clusters.zonal with
  | [] => current_clusters
  | z :: rest =>
    { zonal :=
        { z with
          disk_utilization_gib := certain_float z.disk_utilization_gib.high,
          cpu_utilization := certain_float z.cpu_utilization.high,
          network_utilization_mbps := certain_float z.network_utilization_mbps.high }
        :: rest }

/-- Whether `_estimate_kafka_requirement` takes the current-cluster
observation path: a current zonal cluster with an instance shape, a required
zone size, and current clusters must all be present. -/
def kafka_uses_current (desires : CapacityDesires)
    (required_zone_size : Option ℕ) : Bool :=
  ((_get_current_zonal_cluster desires).bind
      (fun czc => czc.cluster_instance)).isSome
    && required_zone_size.isSome && desires.current_clusters.isSome

/-- Analytic (no current-cluster observation) branch of
`_estimate_kafka_requirement`: square-root staffed cores normalized onto the
candidate and divided per zone, disk at 2.5x the zonal state size, and the
duplexed bandwidth requirement with 40% headroom. Returns
(cores, disk, network). -/
def _kafka_requirement_analytic (ext : KafkaExternals) (inst : Instance)
    (desires : CapacityDesires) (copies_per_region : ℤ)
    (zones_per_region : ℕ) : ℤ × ℤ × ℤ :=
  let read_mib_per_second : ℚ :=
    desires.query_pattern.estimated_mean_read_size_bytes.mid / MIB_IN_BYTES
  let write_mib_per_second : ℚ :=
    desires.query_pattern.estimated_mean_write_size_bytes.mid / MIB_IN_BYTES
  -- 1 concurrent reader, cpu time is per MiB read
  let normalized_query_pattern : QueryPattern :=
    { desires.query_pattern with
      estimated_read_per_second :=
        desires.query_pattern.estimated_read_per_second.scale read_mib_per_second,
      estimated_write_per_second :=
        desires.query_pattern.estimated_write_per_second.scale write_mib_per_second }
  -- let X = input write BW; BW_in = X * RF; BW_out = X * consumers + X * (RF - 1)
  let bw_in : ℚ :=
    write_mib_per_second * MIB_IN_BYTES * copies_per_region / MEGABIT_IN_BYTES
  let bw_out : ℚ :=
    (read_mib_per_second * MIB_IN_BYTES
      + write_mib_per_second * MIB_IN_BYTES * ((copies_per_region : ℚ) - 1))
      / MEGABIT_IN_BYTES
  (Int.floor (ext.normalize_cores (ext.sqrt_staffed_cores normalized_query_pattern)
      inst desires.reference_shape / zones_per_region),
   -- needed_disk = state_size * 2.5 (at most 40% of available disk used)
   Int.ceil ((Int.floor (desires.data_shape.estimated_state_size_gib.mid
      / zones_per_region) : ℚ) * (5/2)),
   -- BW = (in + out) because duplex then 40% headroom
   Int.floor (max bw_in bw_out * (7/5) / zones_per_region))

/-- Estimate the zonal capacity requirement from the regional desire
(`_estimate_kafka_requirement`). Returns the requirement together with the
regret tags. -/
def _estimate_kafka_requirement (ext : KafkaExternals) (inst : Instance)
    (desires : CapacityDesires) (copies_per_region : ℤ)
    (hot_retention_seconds : ℚ) (zones_per_region : ℕ)
    (required_zone_size : Option ℕ) : CapacityRequirement × List String :=
  let write_mib_per_second : ℚ :=
    desires.query_pattern.estimated_mean_write_size_bytes.mid / MIB_IN_BYTES
  let current_zonal_capacity := _get_current_zonal_cluster desires
  -- We have no existing utilization to go from: (cores, disk, network)
  let analytic : ℤ × ℤ × ℤ :=
    _kafka_requirement_analytic ext inst desires copies_per_region zones_per_region
  let chosen : ℤ × ℤ × ℤ :=
    match desires.current_clusters, current_zonal_capacity, required_zone_size with
    | some cc, some czc, some _ =>
      match czc.cluster_instance with
      | some ci =>
        let capacity_requirement :=
          ext.zonal_requirements_from_current (peak_current_clusters cc) inst ci
        (truncInt capacity_requirement.cpu_cores.mid,
         truncInt capacity_requirement.disk_gib.mid,
         truncInt capacity_requirement.network_mbps.mid)
      | none => analytic
    | _, _, _ => analytic
  -- Keep the last N seconds hot in cache
  let needed_memory : ℤ :=
    Int.floor ((Int.floor (write_mib_per_second * hot_retention_seconds / 1024) : ℚ)
      / zones_per_region)
  ({ cpu_cores := certain_int chosen.1,
     mem_gib := certain_float (needed_memory : ℚ),
     disk_gib := certain_float (chosen.2.1 : ℚ),
     network_mbps := certain_float (chosen.2.2 : ℚ) },
   ["spend", "disk", "mem"])

/-- Merge provisioning parameters into a cluster descriptor (`_upsert_params`). -/
def _upsert_params (cluster : ZoneCluster) (params : List (String × ℤ)) :
    ZoneCluster :=
  if cluster.cluster_params.isEmpty then { cluster with cluster_params := params }
  else { cluster with cluster_params := cluster.cluster_params ++ params }

/-- Disk read IOs per second needed for reads plus node recovery
(`_kafka_read_io`). -/
def _kafka_read_io (rps : ℚ) (io_size_kib : ℕ) (size_gib : ℚ)
    (recovery_seconds : ℕ) : ℚ :=
  let read_ios := rps * (5/100)
  let size_kib := size_gib * (1/2) * (1024 * 1024)
  let recovery_ios := max 1 (size_kib / io_size_kib) / recovery_seconds
  (read_ios + (roundHalfEven recovery_ios : ℚ)) * (3/2)

/-- Arguments handed to the external zone sizer. -/
structure ZoneClusterArgs where
  needed_cores : ℤ
  needed_disk_gib : ℤ
  needed_memory_gib : ℤ
  needed_network_mbps : ℚ
  required_disk_ios : ℚ → ℚ → ℚ × ℚ
  required_disk_space : ℚ → ℚ
  max_local_disk_gib : ℕ
  cluster_size : ℕ → ℕ
  min_count : ℕ
  reserve_memory : ℚ → ℚ
  max_attached_disk_gib : Option ℕ

/-- Modelled from the spec: the external zone sizer `compute_stateful_zone`
(models/common.py, outside the visible core). The spec gives only its
contract: it bin-packs the requirement into a node count, per-cluster cost
and descriptor, honouring the requested minimum count and the cluster-size
rounding function. The raw bin-packed count and annual cost are supplied as
oracles. -/
def compute_stateful_zone (raw_count : ℕ) (raw_annual_cost : ℚ)
    (inst : Instance) (drive : Drive) (args : ZoneClusterArgs) : ZoneCluster :=
  let _ := inst
  let _ := drive
  { count := args.cluster_size (max raw_count args.min_count),
    annual_cost := raw_annual_cost,
    cluster_type := "",
    cluster_params := [] }

/-- Zone-sizer arguments built by `_estimate_kafka_cluster_zonal`. -/
def kafka_zone_args (drive : Drive) (requirement : CapacityRequirement)
    (desires : CapacityDesires) (copies_per_region : ℤ)
    (zones_per_region : ℕ) (required_zone_size : Option ℕ)
    (max_local_disk_gib : ℕ) : ZoneClusterArgs :=
  -- Account for sidecars and base system memory
  let base_mem := desires.data_shape.reserved_instance_app_mem_gib
      + desires.data_shape.reserved_instance_system_mem_gib
  -- Kafka clusters in prod (tier 0+1) need at least 2 nodes per zone
  let min_count : ℕ := if desires.service_tier < 2 then 2 else 1
  let read_mib_per_second : ℤ :=
    Int.fdiv (Int.fdiv (truncInt desires.query_pattern.estimated_mean_read_size_bytes.mid)
      MIB_IN_BYTES) zones_per_region
  let write_mib_per_second : ℤ :=
    Int.fdiv (Int.fdiv (truncInt desires.query_pattern.estimated_mean_write_size_bytes.mid)
      MIB_IN_BYTES) zones_per_region
  -- All Kafka IOs are sequential, so they can use the group size
  let read_ios_per_second : ℤ :=
    max 1 (Int.fdiv (read_mib_per_second * 1024) drive.seq_io_size_kib)
  let write_ios_per_second : ℤ :=
    max 1 (Int.fdiv (write_mib_per_second * 1024) drive.seq_io_size_kib)
  { needed_cores := truncInt requirement.cpu_cores.mid,
    needed_disk_gib := truncInt requirement.disk_gib.mid,
    needed_memory_gib := truncInt requirement.mem_gib.mid,
    needed_network_mbps := requirement.network_mbps.mid,
    required_disk_ios := fun size count =>
      (_kafka_read_io ((read_ios_per_second : ℚ) / count) drive.seq_io_size_kib
          size (60 * 60),
       (copies_per_region : ℚ) * ((write_ios_per_second : ℚ) / count) * 2),
    -- Disk buffer is already added when computing kafka disk requirements
    required_disk_space := fun x => x,
    max_local_disk_gib := max_local_disk_gib,
    cluster_size := fun x => x,
    min_count := max min_count
      (match required_zone_size with
       | some n => if n = 0 then 1 else n
       | none => 1),
    -- Kafka currently uses 8GiB fixed
    reserve_memory := fun _ => base_mem + 8,
    -- allow up to 8TiB of attached EBS
    max_attached_disk_gib := some (8 * 1024) }

/-- Whether the per-node disk realized at the forced zone size fits the
maximum allowed drive size (the `ebs_gib <= max_size` test of
`_estimate_kafka_cluster_zonal`). -/
def kafka_forced_size_disk_fits (requirement : CapacityRequirement)
    (inst : Instance) (drive : Drive) (max_local_disk_gib : ℕ)
    (required_zone_size : ℕ) : Bool :=
  let space_gib : ℤ :=
    max 1 (Int.ceil (requirement.disk_gib.mid / required_zone_size))
  let ebs_gib : ℕ := next_n space_gib.toNat 100
  let max_attached_disk_gib : Option ℕ := some (8 * 1024)
  -- Max allowed disk size in `compute_stateful_zone`
  let max_size : ℚ :=
    match inst.drive with
    | some d =>
      if 0 < d.size_gib then ((min max_local_disk_gib d.size_gib : ℕ) : ℚ)
      else
        match max_attached_disk_gib with
        | some m => (m : ℚ)
        | none => drive.max_size_gib / 3
    | none =>
      match max_attached_disk_gib with
      | some m => (m : ℚ)
      | none => drive.max_size_gib / 3
  decide ((ebs_gib : ℚ) ≤ max_size)

/-- Final admissibility and plan construction shared by the tail of
`_estimate_kafka_cluster_zonal`: enforce the regional node cap and build the
capacity plan. -/
def _kafka_finalize (cluster : ZoneCluster) (requirement : CapacityRequirement)
    (regrets : List String) (zones_per_region : ℕ) (max_regional_size : ℕ) :
    Option CapacityPlan :=
  -- Kafka clusters generally should try to stay under some total node count
  if max_regional_size / zones_per_region < cluster.count then none
  else
    let ec2_cost : ℚ := (zones_per_region : ℚ) * cluster.annual_cost
    let tagged := { cluster with cluster_type := "kafka" }
    some
      { requirements :=
          { zonal := List.replicate zones_per_region requirement,
            regional := [], regrets := regrets },
        candidate_clusters :=
          { annual_costs := [("kafka.zonal-clusters", ec2_cost)],
            zonal := List.replicate zones_per_region tagged,
            regional := [] } }

/-- Cluster descriptor computed by `_estimate_kafka_cluster_zonal`: the zone
sizer applied to the requirement-derived arguments, with the replication
parameters upserted. -/
def kafka_sized_cluster (ext : KafkaExternals) (raw_count : ℕ)
    (raw_annual_cost : ℚ) (inst : Instance) (drive : Drive)
    (desires : CapacityDesires) (hot_retention_seconds : ℚ)
    (zones_per_region : ℕ) (copies_per_region : ℤ)
    (required_zone_size : Option ℕ) (max_local_disk_gib : ℕ) : ZoneCluster :=
  let requirement := (_estimate_kafka_requirement ext inst desires
    copies_per_region hot_retention_seconds zones_per_region required_zone_size).1
  let cluster0 := compute_stateful_zone raw_count raw_annual_cost inst drive
    (kafka_zone_args drive requirement desires copies_per_region
      zones_per_region required_zone_size max_local_disk_gib)
  -- Communicate to the actual provision that if we want reduced RF
  _upsert_params cluster0 [("kafka.copies", copies_per_region)]

/-- Zonal Kafka cluster estimation (`_estimate_kafka_cluster_zonal`). -/
def _estimate_kafka_cluster_zonal (ext : KafkaExternals) (raw_count : ℕ)
    (raw_annual_cost : ℚ) (inst : Instance) (drive : Drive)
    (desires : CapacityDesires) (hot_retention_seconds : ℚ)
    (zones_per_region : ℕ) (copies_per_region : ℤ)
    (require_local_disks : Bool) (require_attached_disks : Bool)
    (required_zone_size : Option ℕ) (max_regional_size : ℕ)
    (max_local_disk_gib : ℕ) (min_instance_cpu : ℕ)
    (min_instance_memory_gib : ℚ) (require_same_instance_family : Bool) :
    Option CapacityPlan :=
  -- Kafka does not like single CPU instances or < 12 GiB of ram
  if inst.cpu < min_instance_cpu ∨ inst.ram_gib < min_instance_memory_gib then none
  -- if we are not allowed to use attached disks, skip EBS only types
  else if inst.drive = none ∧ require_local_disks = true then none
  -- if we are not allowed to use local disks, skip ephems
  else if inst.drive ≠ none ∧ require_attached_disks = true then none
  -- Kafka only deploys on gp3 drives right now
  else if inst.drive = none ∧ drive.name ≠ "gp3" then none
  -- restrict to the same instance family against a current cluster
  else if (_get_current_zonal_cluster desires).isSome
      ∧ require_same_instance_family = true
      ∧ _is_same_instance_family (_get_current_zonal_cluster desires) inst.family = false
    then none
  else
    let requirement_regrets := _estimate_kafka_requirement ext inst desires
      copies_per_region hot_retention_seconds zones_per_region required_zone_size
    let requirement := requirement_regrets.1
    let cluster := kafka_sized_cluster ext raw_count raw_annual_cost inst drive
      desires hot_retention_seconds zones_per_region copies_per_region
      required_zone_size max_local_disk_gib
    match required_zone_size with
    | some rzs =>
      -- If we did not exceed the max disk size with the required_zone_size,
      -- then we only allow topologies that match the desired zone size
      if kafka_forced_size_disk_fits requirement inst drive max_local_disk_gib rzs
          ∧ cluster.count ≠ rzs then none
      else _kafka_finalize cluster requirement requirement_regrets.2
        zones_per_region max_regional_size
    | none => _kafka_finalize cluster requirement requirement_regrets.2
        zones_per_region max_regional_size

/-- Cluster consistency type of the Kafka model. -/
inductive ClusterType where
  | strong
  | ha
deriving DecidableEq, Repr

/-- Extra model arguments of the Kafka model, each optional with the same
defaults the code reads via `extra_model_arguments.get`. The hot-retention
duration is held in seconds (ISO-8601 parsing is external); the default
"PT10M" is 600 seconds. -/
structure KafkaExtraArgs where
  cluster_type : Option ClusterType := none
  copies_per_region : Option ℤ := none
  hot_retention_seconds : Option ℚ := none
  require_local_disks : Option Bool := none
  require_attached_disks : Option Bool := none
  required_zone_size : Option ℕ := none
  max_regional_size : Option ℕ := none
  max_local_disk_gib : Option ℕ := none
  min_instance_cpu : Option ℕ := none
  min_instance_memory_gib : Option ℚ := none
  require_same_instance_family : Option Bool := none
deriving DecidableEq, Repr

/-- Default replication factor for high-availability Kafka clusters. -/
def HA_DEFAULT_REPLICATION_FACTOR : ℤ := 2

/-- Default replication factor for strong-consistency Kafka clusters. -/
def SC_DEFAULT_REPLICATION_FACTOR : ℤ := 3

/-- Entry point `NflxKafkaCapacityModel.capacity_plan`: validates the
replication factor against the consistency mode (a domain error, not an
inadmissibility) and delegates to the zonal estimator. -/
def kafka_capacity_plan (ext : KafkaExternals) (raw_count : ℕ)
    (raw_annual_cost : ℚ) (inst : Instance) (drive : Drive)
    (context : RegionContext) (desires : CapacityDesires)
    (extra_model_arguments : KafkaExtraArgs) :
    Except String (Option CapacityPlan) :=
  let cluster_type := extra_model_arguments.cluster_type.getD ClusterType.ha
  let replication_factor : ℤ :=
    if cluster_type = ClusterType.strong then SC_DEFAULT_REPLICATION_FACTOR
    else HA_DEFAULT_REPLICATION_FACTOR
  let copies_per_region :=
    extra_model_arguments.copies_per_region.getD replication_factor
  if cluster_type = ClusterType.strong ∧ copies_per_region < 3 then
    Except.error "Strong consistency and RF<3 does not work"
  else
    Except.ok (_estimate_kafka_cluster_zonal ext raw_count raw_annual_cost
      inst drive desires
      (extra_model_arguments.hot_retention_seconds.getD 600)
      context.zones_in_region copies_per_region
      (extra_model_arguments.require_local_disks.getD false)
      (extra_model_arguments.require_attached_disks.getD false)
      extra_model_arguments.required_zone_size
      (extra_model_arguments.max_regional_size.getD 150)
      (extra_model_arguments.max_local_disk_gib.getD (1024 * 5))
      (extra_model_arguments.min_instance_cpu.getD 2)
      (extra_model_arguments.min_instance_memory_gib.getD 12)
      (extra_model_arguments.require_same_instance_family.getD true))

/-! ## Replicated-store (Cassandra) estimator (models/org/netflix/cassandra.py) -/

/-- External collaborators called by the Cassandra estimator (models/common.py,
outside the visible core), abstracted as oracle functions over the query
pattern. -/
structure CassExternals where
  sqrt_staffed_cores : QueryPattern → ℚ
  simple_network_mbps : QueryPattern → ℚ

/-- Read amplification for one read under leveled compaction
(`_cass_io_per_read`): C* LCS has 160 MiB sstables by default and 10
sstables per level, plus 1 for L0. `Nat.clog 10` is the ceiling of the
base-10 logarithm, i.e. `int(math.ceil(math.log(sstables, 10)))`. -/
def _cass_io_per_read (node_size_gib : ℕ) (sstable_size_mb : ℕ := 160) : ℕ :=
  let gb := node_size_gib * 1024
  let sstables := max 1 (gb / sstable_size_mb)
  1 + Nat.clog 10 sstables

/-- Estimate the zonal capacity requirement from the regional desire
(`_estimate_cassandra_requirement`): keep half the cores and half the
bandwidth for background work, replicate the dataset, front it with the
working-set fraction of memory, then convert to per zone. -/
def _estimate_cassandra_requirement (ext : CassExternals)
    (desires : CapacityDesires) (working_set : ℚ)
    (zones_per_region : ℕ) (copies_per_region : ℕ) : CapacityRequirement :=
  let needed_cores := ext.sqrt_staffed_cores desires.query_pattern * 2
  let needed_network_mbps := ext.simple_network_mbps desires.query_pattern * 2
  let needed_disk :=
    desires.data_shape.estimated_state_size_gib.mid * copies_per_region
  let needed_memory := working_set * needed_disk
  -- Now convert to per zone
  let needed_cores_zonal : ℤ := Int.floor (needed_cores / zones_per_region)
  let needed_disk_zonal : ℤ := Int.floor (needed_disk / zones_per_region)
  let needed_memory_zonal : ℤ := Int.floor (needed_memory / zones_per_region)
  { cpu_cores := certain_int needed_cores_zonal,
    mem_gib := certain_float (needed_memory_zonal : ℚ),
    disk_gib := certain_float (needed_disk_zonal : ℚ),
    network_mbps := certain_float needed_network_mbps }

/-- Arguments handed to the store estimator's zone sizer. -/
structure CassZoneArgs where
  needed_cores : ℤ
  needed_disk_gib : ℤ
  needed_memory_gib : ℤ
  needed_network_mbps : ℚ
  required_disk_ios : ℕ → ℤ
  required_disk_space : ℚ → ℚ
  cluster_size : ℕ → ℕ
  reserve_memory : ℚ → ℚ

/-- Concrete zonal cluster descriptor of the store estimator's era. -/
structure CassZoneCluster where
  count : ℕ
  annual_cost : ℚ
  cluster_type : String
deriving DecidableEq, Repr

/-- Modelled from the spec: the external zone sizer `compute_stateful_zone`
in the store estimator's era (models/common.py, outside the visible core):
it bin-packs the requirement into a node count and cost, applying the
cluster-size rounding function to the count. The raw bin-packed count and
annual cost are supplied as oracles. -/
def compute_stateful_zone_cass (raw_count : ℕ) (raw_annual_cost : ℚ)
    (inst : Instance) (drive : Drive) (args : CassZoneArgs) : CassZoneCluster :=
  let _ := inst
  let _ := drive
  { count := args.cluster_size raw_count,
    annual_cost := raw_annual_cost,
    cluster_type := "" }

/-- Zone-sizer arguments built by `_estimate_cassandra_cluster_zonal` from
the requirement and the per-zone read rate. -/
def cassandra_zone_args (rps : ℤ) (requirement : CapacityRequirement) :
    CassZoneArgs :=
  { needed_cores := truncInt requirement.cpu_cores.mid,
    needed_disk_gib := truncInt requirement.disk_gib.mid,
    needed_memory_gib := truncInt requirement.mem_gib.mid,
    needed_network_mbps := requirement.network_mbps.mid,
    -- reads per read from the per node dataset using leveled compaction
    required_disk_ios := fun x =>
      (_cass_io_per_read x : ℤ) * Int.ceil ((1/10 : ℚ) * (rps : ℚ)),
    -- C* requires ephemeral disks to be 25% full
    required_disk_space := fun x => x * 4,
    -- C* clusters provision in powers of 2 because doubling
    cluster_size := next_power_of_2,
    -- C* heap usage takes away from OS page cache memory
    reserve_memory := fun x =>
      max (min ((Int.floor (x / 2) : ℤ) : ℚ) 4) (min ((Int.floor (x / 4) : ℤ) : ℚ) 12) }

/-- Clusters block of a store-estimator capacity plan. -/
structure CassClusters where
  total_annual_cost : ℚ
  zonal : List CassZoneCluster
deriving DecidableEq, Repr

/-- Capacity plan of the store estimator: requirement plus topology. -/
structure CassCapacityPlan where
  requirement : CapacityRequirement
  candidate_clusters : CassClusters
deriving DecidableEq, Repr

/-- Build the store-estimator plan from an admitted cluster
(the tail of `_estimate_cassandra_cluster_zonal` after the 32-node gate). -/
def _cassandra_plan (requirement : CapacityRequirement)
    (cluster : CassZoneCluster) (zones_per_region : ℕ) : CassCapacityPlan :=
  let tagged := { cluster with cluster_type := "cassandra" }
  { requirement := requirement,
    candidate_clusters :=
      { total_annual_cost := (zones_per_region : ℚ) * cluster.annual_cost,
        zonal := List.replicate zones_per_region tagged } }

/-- Zonal Cassandra cluster estimation (`_estimate_cassandra_cluster_zonal`).
The working-set fraction (external distribution fit of the drive latency
against the read SLO) is supplied as an oracle. -/
def _estimate_cassandra_cluster_zonal (ext : CassExternals) (raw_count : ℕ)
    (raw_annual_cost : ℚ) (inst : Instance) (drive : Drive)
    (desires : CapacityDesires) (working_set : ℚ)
    (zones_per_region : ℕ) (copies_per_region : ℕ) (allow_gp2 : Bool)
    (required_cluster_size : Option ℕ) : Option CassCapacityPlan :=
  -- if we are not allowed to use gp2, skip EBS only types
  if inst.drive = none ∧ allow_gp2 = false then none
  -- Cassandra only deploys on gp2 drives right now
  else if drive.name ≠ "gp2" then none
  -- Cassandra does not like to deploy on really small instances
  else if inst.cpu < 8 then none
  else
    let rps : ℤ :=
      Int.floor (desires.query_pattern.estimated_read_per_second.mid / zones_per_region)
    let requirement := _estimate_cassandra_requirement ext desires working_set
      zones_per_region copies_per_region
    let cluster := compute_stateful_zone_cass raw_count raw_annual_cost inst drive
      (cassandra_zone_args rps requirement)
    -- Sometimes we do not want to modify cluster topology, so only allow
    -- topologies that match the desired zone size
    match required_cluster_size with
    | some n =>
      if cluster.count ≠ n then none
      -- Cassandra clusters should not be more than 32 nodes per zone
      else if cluster.count ≤ 32 then
        some (_cassandra_plan requirement cluster zones_per_region)
      else none
    | none =>
      if cluster.count ≤ 32 then
        some (_cassandra_plan requirement cluster zones_per_region)
      else none

/-! ## Regret scorer (`CapacityModel.regret` of models/__init__.py) -/

/-- Modelled from the spec: the regret-parameter record
`CapacityRegretParameters` of the interface module (not part of the visible
core): over/under provision cost weights and the two exponents. Exponents
are embedded as natural numbers. -/
structure CapacityRegretParameters where
  over_provision_cost : ℚ
  under_provision_cost : ℚ
  cost_exponent : ℕ
  disk_exponent : ℕ
deriving DecidableEq, Repr

/-- Componentized regret breakdown returned as a map {cost, disk_space}. -/
structure RegretComponents where
  cost : ℚ
  disk_space : ℚ
deriving DecidableEq, Repr

/-- Total requirement disk of a plan: zonal plus regional `disk_gib.mid`. -/
def plan_requirement_disk (plan : CapacityPlan) : ℚ :=
  (plan.requirements.zonal.map (fun req => req.disk_gib.mid)).sum
    + (plan.requirements.regional.map (fun req => req.disk_gib.mid)).sum

/-- Cost component of `CapacityModel.regret` before the 4-decimal rounding. -/
def cost_regret_raw (regret_params : CapacityRegretParameters)
    (optimal_plan proposed_plan : CapacityPlan) : ℚ :=
  let optimal_cost := optimal_plan.candidate_clusters.total_annual_cost
  let plan_cost := proposed_plan.candidate_clusters.total_annual_cost
  if optimal_cost ≤ plan_cost then
    ((plan_cost - optimal_cost) * regret_params.over_provision_cost)
      ^ regret_params.cost_exponent
  else
    ((optimal_cost - plan_cost) * regret_params.under_provision_cost)
      ^ regret_params.cost_exponent

/-- Disk component of `CapacityModel.regret` before the 4-decimal rounding:
we regret not having the disk space for a dataset. -/
def disk_regret_raw (regret_params : CapacityRegretParameters)
    (optimal_plan proposed_plan : CapacityPlan) : ℚ :=
  let optimal_disk := plan_requirement_disk optimal_plan
  let plan_disk := plan_requirement_disk proposed_plan
  if plan_disk < optimal_disk then
    ((optimal_disk - plan_disk) * regret_params.under_provision_cost)
      ^ regret_params.disk_exponent
  else 0

/-- Default regret scorer `CapacityModel.regret`: componentized map, each
component rounded to 4 decimal places. -/
def regret (regret_params : CapacityRegretParameters)
    (optimal_plan proposed_plan : CapacityPlan) : RegretComponents :=
  { cost := round4 (cost_regret_raw regret_params optimal_plan proposed_plan),
    disk_space := round4 (disk_regret_raw regret_params optimal_plan proposed_plan) }

/-! ## Concrete fixtures used to evaluate the estimators at explicit inputs -/

/-- Reference instance shape for concrete evaluations. -/
def sample_reference : Instance :=
  { cpu := 16, ram_gib := 64, drive := none, family := "m5" }

/-- A mid-size EBS-only instance (4 cores, 32 GiB). -/
def sample_instance : Instance :=
  { cpu := 4, ram_gib := 32, drive := none, family := "r5" }

/-- A single-core instance. -/
def sample_small_instance : Instance :=
  { cpu := 1, ram_gib := 32, drive := none, family := "r5" }

/-- A gp3 cloud drive. -/
def sample_gp3 : Drive :=
  { name := "gp3", seq_io_size_kib := 128, max_size_gib := 16384 }

/-- A gp2 cloud drive. -/
def sample_gp2 : Drive :=
  { name := "gp2", seq_io_size_kib := 128, max_size_gib := 16384 }

/-- A throughput-heavy query pattern: 10 MiB mean sizes. -/
def sample_query_pattern : QueryPattern :=
  { estimated_read_per_second := certain_float 1000,
    estimated_write_per_second := certain_float 100,
    estimated_mean_read_size_bytes := certain_float (10 * 1024 * 1024),
    estimated_mean_write_size_bytes := certain_float (10 * 1024 * 1024) }

/-- A 30 TiB regional data shape with the Kafka reserved memory defaults. -/
def sample_data_shape : DataShape :=
  { estimated_state_size_gib := certain_float 30000,
    reserved_instance_app_mem_gib := 1,
    reserved_instance_system_mem_gib := 3 }

/-- Tier-1 desires with no current cluster. -/
def sample_desires : CapacityDesires :=
  { query_pattern := sample_query_pattern,
    data_shape := sample_data_shape,
    current_clusters := none,
    service_tier := 1,
    reference_shape := sample_reference }

/-- Oracle externals for concrete Kafka evaluations. -/
def sample_externals : KafkaExternals :=
  { sqrt_staffed_cores := fun _ => 30,
    normalize_cores := fun c _ _ => c,
    zonal_requirements_from_current := fun _ _ _ =>
      { cpu_cores := certain_float 10, mem_gib := certain_float 10,
        disk_gib := certain_float 10, network_mbps := certain_float 10 } }

/-- Oracle externals for concrete Cassandra evaluations. -/
def sample_cass_externals : CassExternals :=
  { sqrt_staffed_cores := fun _ => 16,
    simple_network_mbps := fun _ => 1000 }

/-- A three-zone region context. -/
def sample_context : RegionContext := { zones_in_region := 3 }

/-- Observed utilization for a current zonal cluster. -/
def sample_current_zone : CurrentZoneClusterCapacity :=
  { cluster_instance := some sample_instance,
    cpu_utilization := { low := 10, mid := 20, high := 40 },
    disk_utilization_gib := { low := 100, mid := 200, high := 400 },
    network_utilization_mbps := { low := 50, mid := 100, high := 200 } }

/-- Desires carrying a current cluster observation. -/
def sample_desires_with_current : CapacityDesires :=
  { sample_desires with
    current_clusters := some { zonal := [sample_current_zone] } }

/-- Default regret parameters for concrete evaluations. -/
def sample_regret_params : CapacityRegretParameters :=
  { over_provision_cost := 1, under_provision_cost := 1,
    cost_exponent := 1, disk_exponent := 1 }

/-- A requirement whose only varying component is disk. -/
def sample_requirement (disk : ℚ) : CapacityRequirement :=
  { cpu_cores := certain_float 10, mem_gib := certain_float 10,
    disk_gib := certain_float disk, network_mbps := certain_float 10 }

/-- A plan of fixed cost 100 with one zonal requirement of the given disk. -/
def sample_plan (disk : ℚ) : CapacityPlan :=
  { requirements :=
      { zonal := [sample_requirement disk], regional := [], regrets := [] },
    candidate_clusters :=
      { annual_costs := [("clusters", 100)], zonal := [], regional := [] } }

/-! ## Claim theorems -/

/-- Claim C1 counterexample: a replication factor below 2 is not rejected.
With the default high-availability cluster type and copies_per_region = 1,
`capacity_plan` returns "no plan" (the 1-core instance is inadmissible)
without raising any domain error, although the replication factor 1
violates "replication factor at least 2 always". -/
theorem kafka_rf_below_two_not_raised :
    kafka_capacity_plan sample_externals 1 0 sample_small_instance sample_gp3
      sample_context sample_desires { copies_per_region := some 1 }
      = Except.ok none := by
  rfl

/-- Claim C1 (amended): `capacity_plan` raises the domain error exactly when
the cluster type is strong consistency and the (possibly defaulted)
replication factor is below 3; in every other case — including
high-availability clusters with copies_per_region below 2 — it returns a
result instead of raising. -/
theorem kafka_rf_validation (ext : KafkaExternals) (raw_count : ℕ)
    (raw_annual_cost : ℚ) (inst : Instance) (drive : Drive)
    (context : RegionContext) (desires : CapacityDesires)
    (args : KafkaExtraArgs) :
    (args.cluster_type.getD ClusterType.ha = ClusterType.strong ∧
        args.copies_per_region.getD 3 < 3 →
      kafka_capacity_plan ext raw_count raw_annual_cost inst drive context
          desires args
        = Except.error "Strong consistency and RF<3 does not work") ∧
    (¬ (args.cluster_type.getD ClusterType.ha = ClusterType.strong ∧
        args.copies_per_region.getD 3 < 3) →
      ∃ result, kafka_capacity_plan ext raw_count raw_annual_cost inst drive
          context desires args = Except.ok result) := by
  constructor
  · rintro ⟨hct, hcp⟩
    simp only [kafka_capacity_plan, hct, SC_DEFAULT_REPLICATION_FACTOR]
    simp [hcp]
  · intro hne
    by_cases hct : args.cluster_type.getD ClusterType.ha = ClusterType.strong
    · have hcp : ¬ args.copies_per_region.getD 3 < 3 := fun hc => hne ⟨hct, hc⟩
      simp only [kafka_capacity_plan, hct, SC_DEFAULT_REPLICATION_FACTOR]
      simp [hcp]
    · simp only [kafka_capacity_plan, hct]
      simp

/-- Claim C1 witness: strong consistency with copies_per_region = 2 raises
the domain error, and the same call with copies_per_region = 3 does not. -/
theorem kafka_rf_validation_witness :
    kafka_capacity_plan sample_externals 1 0 sample_small_instance sample_gp3
        sample_context sample_desires
        { cluster_type := some ClusterType.strong, copies_per_region := some 2 }
      = Except.error "Strong consistency and RF<3 does not work" ∧
    ∃ result,
      kafka_capacity_plan sample_externals 1 0 sample_small_instance sample_gp3
          sample_context sample_desires
          { cluster_type := some ClusterType.strong, copies_per_region := some 3 }
        = Except.ok result := by
  constructor
  · exact (kafka_rf_validation sample_externals 1 0 sample_small_instance
      sample_gp3 sample_context sample_desires
      { cluster_type := some ClusterType.strong, copies_per_region := some 2 }).1
      (by constructor <;> decide)
  · exact (kafka_rf_validation sample_externals 1 0 sample_small_instance
      sample_gp3 sample_context sample_desires
      { cluster_type := some ClusterType.strong, copies_per_region := some 3 }).2
      (by rintro ⟨-, h⟩; exact absurd h (by decide))

/-- Helper: the first admissibility gate of the zonal Kafka estimator
rejects instances below the CPU or memory floor. -/
lemma kafka_zonal_floor_none (ext : KafkaExternals) (raw_count : ℕ)
    (raw_annual_cost : ℚ) (inst : Instance) (drive : Drive)
    (desires : CapacityDesires) (hot_retention_seconds : ℚ)
    (zones_per_region : ℕ) (copies_per_region : ℤ)
    (require_local_disks require_attached_disks : Bool)
    (required_zone_size : Option ℕ) (max_regional_size max_local_disk_gib : ℕ)
    (min_instance_cpu : ℕ) (min_instance_memory_gib : ℚ)
    (require_same_instance_family : Bool)
    (hfloor : inst.cpu < min_instance_cpu ∨ inst.ram_gib < min_instance_memory_gib) :
    _estimate_kafka_cluster_zonal ext raw_count raw_annual_cost inst drive
        desires hot_retention_seconds zones_per_region copies_per_region
        require_local_disks require_attached_disks required_zone_size
        max_regional_size max_local_disk_gib min_instance_cpu
        min_instance_memory_gib require_same_instance_family = none := by
  simp only [_estimate_kafka_cluster_zonal]
  rw [if_pos hfloor]

/-- Helper: when the replication-factor validation passes, `capacity_plan`
returns the zonal estimate with all argument defaults applied. -/
lemma kafka_capacity_plan_ok (ext : KafkaExternals) (raw_count : ℕ)
    (raw_annual_cost : ℚ) (inst : Instance) (drive : Drive)
    (context : RegionContext) (desires : CapacityDesires)
    (args : KafkaExtraArgs)
    (hne : ¬ (args.cluster_type.getD ClusterType.ha = ClusterType.strong ∧
        args.copies_per_region.getD 3 < 3)) :
    kafka_capacity_plan ext raw_count raw_annual_cost inst drive context
        desires args
      = Except.ok (_estimate_kafka_cluster_zonal ext raw_count raw_annual_cost
          inst drive desires (args.hot_retention_seconds.getD 600)
          context.zones_in_region
          (args.copies_per_region.getD
            (if args.cluster_type.getD ClusterType.ha = ClusterType.strong
             then 3 else 2))
          (args.require_local_disks.getD false)
          (args.require_attached_disks.getD false)
          args.required_zone_size (args.max_regional_size.getD 150)
          (args.max_local_disk_gib.getD (1024 * 5))
          (args.min_instance_cpu.getD 2) (args.min_instance_memory_gib.getD 12)
          (args.require_same_instance_family.getD true)) := by
  by_cases hct : args.cluster_type.getD ClusterType.ha = ClusterType.strong
  · have hcp : ¬ args.copies_per_region.getD 3 < 3 := fun hc => hne ⟨hct, hc⟩
    simp only [kafka_capacity_plan, hct, SC_DEFAULT_REPLICATION_FACTOR]
    simp [hcp]
  · simp only [kafka_capacity_plan, hct, HA_DEFAULT_REPLICATION_FACTOR]
    simp

/-- Claim C8: an instance below the CPU or memory floor is inadmissible for
the log estimator, and with the default floors (2 cores, 12 GiB) a 1-core
instance always yields "no plan" from `capacity_plan` (whenever the
replication-factor validation does not raise first). -/
theorem kafka_min_instance_gate (ext : KafkaExternals) (raw_count : ℕ)
    (raw_annual_cost : ℚ) (inst : Instance) (drive : Drive)
    (context : RegionContext) (desires : CapacityDesires)
    (args : KafkaExtraArgs) (hot_retention_seconds : ℚ)
    (zones_per_region : ℕ) (copies_per_region : ℤ)
    (require_local_disks require_attached_disks : Bool)
    (required_zone_size : Option ℕ) (max_regional_size max_local_disk_gib : ℕ)
    (min_instance_cpu : ℕ) (min_instance_memory_gib : ℚ)
    (require_same_instance_family : Bool) :
    (inst.cpu < min_instance_cpu ∨ inst.ram_gib < min_instance_memory_gib →
      _estimate_kafka_cluster_zonal ext raw_count raw_annual_cost inst drive
          desires hot_retention_seconds zones_per_region copies_per_region
          require_local_disks require_attached_disks required_zone_size
          max_regional_size max_local_disk_gib min_instance_cpu
          min_instance_memory_gib require_same_instance_family = none) ∧
    (args.min_instance_cpu = none → inst.cpu = 1 →
      ¬ (args.cluster_type.getD ClusterType.ha = ClusterType.strong ∧
          args.copies_per_region.getD 3 < 3) →
      kafka_capacity_plan ext raw_count raw_annual_cost inst drive context
          desires args = Except.ok none) := by
  constructor
  · exact kafka_zonal_floor_none ext raw_count raw_annual_cost inst drive
      desires hot_retention_seconds zones_per_region copies_per_region
      require_local_disks require_attached_disks required_zone_size
      max_regional_size max_local_disk_gib min_instance_cpu
      min_instance_memory_gib require_same_instance_family
  · intro hdef hcpu hne
    rw [kafka_capacity_plan_ok ext raw_count raw_annual_cost inst drive context
      desires args hne]
    rw [kafka_zonal_floor_none _ _ _ _ _ _ _ _ _ _ _ _ _ _ _ _ _
      (Or.inl (by rw [hcpu, hdef]; decide))]

/-- Claim C8 witness: the 1-core sample instance with default extra model
arguments yields "no plan". -/
theorem kafka_min_instance_gate_witness :
    kafka_capacity_plan sample_externals 7 5 sample_small_instance sample_gp3
        sample_context sample_desires {} = Except.ok none :=
  (kafka_min_instance_gate sample_externals 7 5 sample_small_instance
      sample_gp3 sample_context sample_desires {} 600 3 2 false false none
      150 5120 2 12 true).2 rfl rfl (by rintro ⟨h, -⟩; exact absurd h (by decide))

/-- Helper: when the current-cluster observation path is not taken, the
Kafka requirement is the analytic one. -/
lemma kafka_requirement_no_current (ext : KafkaExternals) (inst : Instance)
    (desires : CapacityDesires) (copies_per_region : ℤ)
    (hot_retention_seconds : ℚ) (zones_per_region : ℕ)
    (required_zone_size : Option ℕ)
    (h : kafka_uses_current desires required_zone_size = false) :
    (_estimate_kafka_requirement ext inst desires copies_per_region
        hot_retention_seconds zones_per_region required_zone_size).1
      = { cpu_cores := certain_int
            (_kafka_requirement_analytic ext inst desires copies_per_region
              zones_per_region).1,
          mem_gib := certain_float
            ((Int.floor ((Int.floor
              (desires.query_pattern.estimated_mean_write_size_bytes.mid
                / MIB_IN_BYTES * hot_retention_seconds / 1024) : ℚ)
              / zones_per_region) : ℤ) : ℚ),
          disk_gib := certain_float
            (((_kafka_requirement_analytic ext inst desires copies_per_region
              zones_per_region).2.1 : ℤ) : ℚ),
          network_mbps := certain_float
            (((_kafka_requirement_analytic ext inst desires copies_per_region
              zones_per_region).2.2 : ℤ) : ℚ) } := by
  rcases hcc : desires.current_clusters with _ | cc
  · simp [_estimate_kafka_requirement, _get_current_zonal_cluster, hcc]
  · rcases hrz : required_zone_size with _ | n
    · simp [_estimate_kafka_requirement, _get_current_zonal_cluster, hcc]
    · rcases hz : cc.zonal with _ | ⟨z, zs⟩
      · simp [_estimate_kafka_requirement, _get_current_zonal_cluster, hcc, hz]
      · have hci : z.cluster_instance = none := by
          rw [kafka_uses_current, hrz] at h
          simp [_get_current_zonal_cluster, hcc, hz] at h
          exact Option.not_isSome_iff_eq_none.mp (by simp [h])
        simp [_estimate_kafka_requirement, _get_current_zonal_cluster, hcc,
          hz, hci]

/-- Claim C2: without the current-cluster observation path, the network
requirement is floor(max(inbound, outbound) x 1.4 / Z) with
inbound = writeMiB/s x bytesPerMiB x R / megabitBytes and
outbound = (readMiB/s x bytesPerMiB + writeMiB/s x bytesPerMiB x (R-1))
/ megabitBytes; with a current cluster, an instance shape and a required
zone size present, the peak (high) observed utilization normalized onto the
candidate instance is used instead. -/
theorem kafka_network_requirement (ext : KafkaExternals) (inst : Instance)
    (desires : CapacityDesires) (copies_per_region : ℤ)
    (hot_retention_seconds : ℚ) (zones_per_region : ℕ)
    (required_zone_size : Option ℕ) :
    (kafka_uses_current desires required_zone_size = false →
      ((_estimate_kafka_requirement ext inst desires copies_per_region
          hot_retention_seconds zones_per_region required_zone_size).1
        ).network_mbps.mid
        = ((Int.floor ((max
            (desires.query_pattern.estimated_mean_write_size_bytes.mid
              / MIB_IN_BYTES * MIB_IN_BYTES * copies_per_region
              / MEGABIT_IN_BYTES)
            ((desires.query_pattern.estimated_mean_read_size_bytes.mid
                / MIB_IN_BYTES * MIB_IN_BYTES
              + desires.query_pattern.estimated_mean_write_size_bytes.mid
                / MIB_IN_BYTES * MIB_IN_BYTES * ((copies_per_region : ℚ) - 1))
              / MEGABIT_IN_BYTES))
            * (7/5) / zones_per_region) : ℤ) : ℚ)) ∧
    (∀ cc czc ci, desires.current_clusters = some cc →
      _get_current_zonal_cluster desires = some czc →
      czc.cluster_instance = some ci →
      required_zone_size.isSome = true →
      ((_estimate_kafka_requirement ext inst desires copies_per_region
          hot_retention_seconds zones_per_region required_zone_size).1
        ).network_mbps.mid
        = ((truncInt ((ext.zonal_requirements_from_current
            (peak_current_clusters cc) inst ci).network_mbps.mid) : ℤ) : ℚ)) := by
  constructor
  · intro h
    rw [kafka_requirement_no_current ext inst desires copies_per_region
      hot_retention_seconds zones_per_region required_zone_size h]
    rfl
  · intro cc czc ci hcc hczc hci hrz
    obtain ⟨n, hn⟩ := Option.isSome_iff_exists.mp hrz
    simp [_estimate_kafka_requirement, hcc, hczc, hci, hn, certain_float]

/-- Claim C2 witness: for the 10 MiB/s sample workload with R = 2 and
Z = 3, the observation path is off and the network requirement follows the
bandwidth formula. -/
theorem kafka_network_requirement_witness :
    kafka_uses_current sample_desires none = false ∧
    ((_estimate_kafka_requirement sample_externals sample_instance
        sample_desires 2 600 3 none).1).network_mbps.mid
      = ((Int.floor ((max
          (sample_desires.query_pattern.estimated_mean_write_size_bytes.mid
            / MIB_IN_BYTES * MIB_IN_BYTES * (2 : ℤ) / MEGABIT_IN_BYTES)
          ((sample_desires.query_pattern.estimated_mean_read_size_bytes.mid
              / MIB_IN_BYTES * MIB_IN_BYTES
            + sample_desires.query_pattern.estimated_mean_write_size_bytes.mid
              / MIB_IN_BYTES * MIB_IN_BYTES * (((2 : ℤ) : ℚ) - 1))
            / MEGABIT_IN_BYTES))
          * (7/5) / (3 : ℕ)) : ℤ) : ℚ) :=
  ⟨by decide,
   (kafka_network_requirement sample_externals sample_instance sample_desires
      2 600 3 none).1 (by decide)⟩

/-- Claim C6: without a current-cluster observation, zonal disk is
ceil(floor(regionalStateGiB / Z) x 2.5) and zonal hot-cache memory is
floor(floor(writeMiB/s x H / 1024) / Z). -/
theorem kafka_disk_memory_requirement (ext : KafkaExternals) (inst : Instance)
    (desires : CapacityDesires) (copies_per_region : ℤ)
    (hot_retention_seconds : ℚ) (zones_per_region : ℕ)
    (required_zone_size : Option ℕ)
    (h : desires.current_clusters = none) :
    ((_estimate_kafka_requirement ext inst desires copies_per_region
        hot_retention_seconds zones_per_region required_zone_size).1
      ).disk_gib.mid
      = ((Int.ceil ((Int.floor
          (desires.data_shape.estimated_state_size_gib.mid
            / zones_per_region) : ℚ) * (5/2)) : ℤ) : ℚ) ∧
    ((_estimate_kafka_requirement ext inst desires copies_per_region
        hot_retention_seconds zones_per_region required_zone_size).1
      ).mem_gib.mid
      = ((Int.floor ((Int.floor
          (desires.query_pattern.estimated_mean_write_size_bytes.mid
            / MIB_IN_BYTES * hot_retention_seconds / 1024) : ℚ)
          / zones_per_region) : ℤ) : ℚ) := by
  have huc : kafka_uses_current desires required_zone_size = false := by
    simp [kafka_uses_current, _get_current_zonal_cluster, h]
  rw [kafka_requirement_no_current ext inst desires copies_per_region
    hot_retention_seconds zones_per_region required_zone_size huc]
  exact ⟨rfl, rfl⟩

/-- Claim C6 witness: for the sample workload (30000 GiB regional state,
10 MiB/s writes, H = 600 s, Z = 3) the disk and memory formulas hold. -/
theorem kafka_disk_memory_requirement_witness :
    sample_desires.current_clusters = none ∧
    ((_estimate_kafka_requirement sample_externals sample_instance
        sample_desires 2 600 3 none).1).disk_gib.mid = 25000 ∧
    ((_estimate_kafka_requirement sample_externals sample_instance
        sample_desires 2 600 3 none).1).mem_gib.mid = 1 := by
  refine ⟨rfl, ?_, ?_⟩
  · rw [(kafka_disk_memory_requirement sample_externals sample_instance
      sample_desires 2 600 3 none rfl).1]
    simp only [sample_desires, sample_data_shape, certain_float]
    norm_num
  · rw [(kafka_disk_memory_requirement sample_externals sample_instance
      sample_desires 2 600 3 none rfl).2]
    simp only [sample_desires, sample_query_pattern, certain_float,
      MIB_IN_BYTES]
    norm_num

/-- Claim C9: with a current zonal cluster observed but no required zone
size supplied, the requirement equals the one computed with no current
cluster at all: observed utilization has no influence without a forced
zone size. -/
theorem kafka_observation_needs_zone_size (ext : KafkaExternals)
    (inst : Instance) (desires : CapacityDesires) (copies_per_region : ℤ)
    (hot_retention_seconds : ℚ) (zones_per_region : ℕ)
    (_hcc : desires.current_clusters.isSome = true) :
    (_estimate_kafka_requirement ext inst desires copies_per_region
        hot_retention_seconds zones_per_region none).1
      = (_estimate_kafka_requirement ext inst
          { desires with current_clusters := none } copies_per_region
          hot_retention_seconds zones_per_region none).1 := by
  rw [kafka_requirement_no_current ext inst desires copies_per_region
      hot_retention_seconds zones_per_region none
      (by simp [kafka_uses_current]),
    kafka_requirement_no_current ext inst
      { desires with current_clusters := none } copies_per_region
      hot_retention_seconds zones_per_region none
      (by simp [kafka_uses_current])]
  rfl

/-- Claim C9 witness: the sample desires carrying a current cluster with
observed utilization produce, absent a required zone size, the same
requirement as with the observation removed. -/
theorem kafka_observation_needs_zone_size_witness :
    sample_desires_with_current.current_clusters.isSome = true ∧
    (_estimate_kafka_requirement sample_externals sample_instance
        sample_desires_with_current 2 600 3 none).1
      = (_estimate_kafka_requirement sample_externals sample_instance
          { sample_desires_with_current with current_clusters := none }
          2 600 3 none).1 :=
  ⟨rfl, kafka_observation_needs_zone_size sample_externals sample_instance
    sample_desires_with_current 2 600 3 rfl⟩

/-- Helper: the finalization step rejects clusters above the regional cap. -/
lemma _kafka_finalize_none (cluster : ZoneCluster)
    (requirement : CapacityRequirement) (regrets : List String)
    (zones_per_region max_regional_size : ℕ)
    (h : max_regional_size / zones_per_region < cluster.count) :
    _kafka_finalize cluster requirement regrets zones_per_region
      max_regional_size = none := by
  simp only [_kafka_finalize]
  rw [if_pos h]

/-- Claim C3: with a forced zone size, (a) a computed zone size above the
regional cap divided by Z is rejected, (b) a cluster whose count differs
from the forced size is rejected when the per-node disk realized at the
forced size fits the maximum drive size, and (c) when it does not fit, the
plan is accepted with the natural (sizer-computed) node count, provided the
admissibility gates pass and the cap is respected. -/
theorem kafka_forced_zone_size_admissibility (ext : KafkaExternals)
    (raw_count : ℕ) (raw_annual_cost : ℚ) (inst : Instance) (drive : Drive)
    (desires : CapacityDesires) (hot_retention_seconds : ℚ)
    (zones_per_region : ℕ) (copies_per_region : ℤ)
    (require_local_disks require_attached_disks : Bool)
    (max_regional_size max_local_disk_gib : ℕ) (min_instance_cpu : ℕ)
    (min_instance_memory_gib : ℚ) (require_same_instance_family : Bool) :
    (∀ required_zone_size : Option ℕ,
      max_regional_size / zones_per_region
          < (kafka_sized_cluster ext raw_count raw_annual_cost inst drive
              desires hot_retention_seconds zones_per_region copies_per_region
              required_zone_size max_local_disk_gib).count →
      _estimate_kafka_cluster_zonal ext raw_count raw_annual_cost inst drive
          desires hot_retention_seconds zones_per_region copies_per_region
          require_local_disks require_attached_disks required_zone_size
          max_regional_size max_local_disk_gib min_instance_cpu
          min_instance_memory_gib require_same_instance_family = none) ∧
    (∀ n : ℕ,
      kafka_forced_size_disk_fits
          (_estimate_kafka_requirement ext inst desires copies_per_region
            hot_retention_seconds zones_per_region (some n)).1
          inst drive max_local_disk_gib n = true →
      (kafka_sized_cluster ext raw_count raw_annual_cost inst drive desires
          hot_retention_seconds zones_per_region copies_per_region (some n)
          max_local_disk_gib).count ≠ n →
      _estimate_kafka_cluster_zonal ext raw_count raw_annual_cost inst drive
          desires hot_retention_seconds zones_per_region copies_per_region
          require_local_disks require_attached_disks (some n)
          max_regional_size max_local_disk_gib min_instance_cpu
          min_instance_memory_gib require_same_instance_family = none) ∧
    (∀ n : ℕ,
      ¬ (inst.cpu < min_instance_cpu ∨ inst.ram_gib < min_instance_memory_gib) →
      ¬ (inst.drive = none ∧ require_local_disks = true) →
      ¬ (inst.drive ≠ none ∧ require_attached_disks = true) →
      ¬ (inst.drive = none ∧ drive.name ≠ "gp3") →
      ¬ ((_get_current_zonal_cluster desires).isSome
          ∧ require_same_instance_family = true
          ∧ _is_same_instance_family (_get_current_zonal_cluster desires)
              inst.family = false) →
      kafka_forced_size_disk_fits
          (_estimate_kafka_requirement ext inst desires copies_per_region
            hot_retention_seconds zones_per_region (some n)).1
          inst drive max_local_disk_gib n = false →
      (kafka_sized_cluster ext raw_count raw_annual_cost inst drive desires
          hot_retention_seconds zones_per_region copies_per_region (some n)
          max_local_disk_gib).count ≤ max_regional_size / zones_per_region →
      ∃ plan,
        _estimate_kafka_cluster_zonal ext raw_count raw_annual_cost inst drive
            desires hot_retention_seconds zones_per_region copies_per_region
            require_local_disks require_attached_disks (some n)
            max_regional_size max_local_disk_gib min_instance_cpu
            min_instance_memory_gib require_same_instance_family = some plan ∧
        plan.candidate_clusters.zonal.map ZoneCluster.count
          = List.replicate zones_per_region
              (kafka_sized_cluster ext raw_count raw_annual_cost inst drive
                desires hot_retention_seconds zones_per_region
                copies_per_region (some n) max_local_disk_gib).count) := by
  refine ⟨?_, ?_, ?_⟩
  · intro required_zone_size hcap
    rcases required_zone_size with _ | n
    · simp only [_estimate_kafka_cluster_zonal]
      split
      · rfl
      split
      · rfl
      split
      · rfl
      split
      · rfl
      split
      · rfl
      exact _kafka_finalize_none _ _ _ _ _ hcap
    · simp only [_estimate_kafka_cluster_zonal]
      split
      · rfl
      split
      · rfl
      split
      · rfl
      split
      · rfl
      split
      · rfl
      split
      · rfl
      · exact _kafka_finalize_none _ _ _ _ _ hcap
  · intro n hfits hneq
    simp only [_estimate_kafka_cluster_zonal]
    split
    · rfl
    split
    · rfl
    split
    · rfl
    split
    · rfl
    split
    · rfl
    rw [if_pos ⟨hfits, hneq⟩]
  · intro n h1 h2 h3 h4 h5 hfits hcap
    simp only [_estimate_kafka_cluster_zonal]
    rw [if_neg h1, if_neg h2, if_neg h3, if_neg h4, if_neg h5,
      if_neg (fun hcon => by
        rw [hfits] at hcon
        exact Bool.false_ne_true hcon.1)]
    simp only [_kafka_finalize]
    rw [if_neg (not_lt.mpr hcap)]
    refine ⟨_, rfl, ?_⟩
    simp [List.map_replicate]

/-- Claim C3 witness: forcing one node per zone for the 25000 GiB zonal
requirement exceeds the 8 TiB attached-disk cap, so the estimator accepts
the natural node count instead of rejecting the mismatched size. -/
theorem kafka_forced_zone_size_admissibility_witness :
    ∃ plan,
      _estimate_kafka_cluster_zonal sample_externals 10 0 sample_instance
          sample_gp3 sample_desires 600 3 2 false false (some 1) 150 5120 2 12
          true = some plan ∧
      plan.candidate_clusters.zonal.map ZoneCluster.count
        = List.replicate 3
            (kafka_sized_cluster sample_externals 10 0 sample_instance
              sample_gp3 sample_desires 600 3 2 (some 1) 5120).count := by
  refine (kafka_forced_zone_size_admissibility sample_externals 10 0
    sample_instance sample_gp3 sample_desires 600 3 2 false false 150 5120 2 12
    true).2.2 1 (by decide) (by decide) (by decide) (by decide) (by decide)
    ?_ (by decide)
  simp only [kafka_forced_size_disk_fits,
    kafka_requirement_no_current sample_externals sample_instance
      sample_desires 2 600 3 (some 1) (by decide)]
  norm_num [_kafka_requirement_analytic, sample_desires, sample_data_shape,
    sample_query_pattern, sample_instance, certain_float, next_n,
    MIB_IN_BYTES, MEGABIT_IN_BYTES]
  have htn : Int.toNat 25000 = 25000 := rfl
  rw [htn]
  norm_num

/-- Helper: any plan returned by the zonal Cassandra estimator has zonal
clusters replicated from the sized cluster, whose node count (the
power-of-two rounding of the raw count) is at most 32. -/
lemma cassandra_zonal_shape (ext : CassExternals) (raw_count : ℕ)
    (raw_annual_cost : ℚ) (inst : Instance) (drive : Drive)
    (desires : CapacityDesires) (working_set : ℚ)
    (zones_per_region copies_per_region : ℕ) (allow_gp2 : Bool)
    (required_cluster_size : Option ℕ) (plan : CassCapacityPlan)
    (h : _estimate_cassandra_cluster_zonal ext raw_count raw_annual_cost inst
      drive desires working_set zones_per_region copies_per_region allow_gp2
      required_cluster_size = some plan) :
    next_power_of_2 raw_count ≤ 32 ∧
    plan.candidate_clusters.zonal
      = List.replicate zones_per_region
          { count := next_power_of_2 raw_count,
            annual_cost := raw_annual_cost,
            cluster_type := "cassandra" } := by
  rcases required_cluster_size with _ | m
  · revert h
    simp only [_estimate_cassandra_cluster_zonal, compute_stateful_zone_cass,
      cassandra_zone_args, _cassandra_plan]
    split
    · intro h; exact Option.noConfusion h
    split
    · intro h; exact Option.noConfusion h
    split
    · intro h; exact Option.noConfusion h
    split
    · rename_i hle
      intro h
      injection h with h
      subst h
      exact ⟨hle, rfl⟩
    · intro h; exact Option.noConfusion h
  · revert h
    simp only [_estimate_cassandra_cluster_zonal, compute_stateful_zone_cass,
      cassandra_zone_args, _cassandra_plan]
    split
    · intro h; exact Option.noConfusion h
    split
    · intro h; exact Option.noConfusion h
    split
    · intro h; exact Option.noConfusion h
    split
    · intro h; exact Option.noConfusion h
    split
    · rename_i hle
      intro h
      injection h with h
      subst h
      exact ⟨hle, rfl⟩
    · intro h; exact Option.noConfusion h

/-- Claim C4: for the store estimator, a non-gp2 drive is inadmissible, an
instance with fewer than 8 cores is inadmissible, every returned plan has a
power-of-two per-zone node count of at most 32, and a sized node count above
32 yields no plan. -/
theorem cassandra_admissibility (ext : CassExternals) (raw_count : ℕ)
    (raw_annual_cost : ℚ) (inst : Instance) (drive : Drive)
    (desires : CapacityDesires) (working_set : ℚ)
    (zones_per_region copies_per_region : ℕ) (allow_gp2 : Bool)
    (required_cluster_size : Option ℕ) :
    (drive.name ≠ "gp2" →
      _estimate_cassandra_cluster_zonal ext raw_count raw_annual_cost inst
        drive desires working_set zones_per_region copies_per_region allow_gp2
        required_cluster_size = none) ∧
    (inst.cpu < 8 →
      _estimate_cassandra_cluster_zonal ext raw_count raw_annual_cost inst
        drive desires working_set zones_per_region copies_per_region allow_gp2
        required_cluster_size = none) ∧
    (∀ plan,
      _estimate_cassandra_cluster_zonal ext raw_count raw_annual_cost inst
          drive desires working_set zones_per_region copies_per_region
          allow_gp2 required_cluster_size = some plan →
      ∀ cl ∈ plan.candidate_clusters.zonal,
        (∃ k, cl.count = 2 ^ k) ∧ cl.count ≤ 32) ∧
    (32 < next_power_of_2 raw_count →
      _estimate_cassandra_cluster_zonal ext raw_count raw_annual_cost inst
        drive desires working_set zones_per_region copies_per_region allow_gp2
        required_cluster_size = none) := by
  refine ⟨?_, ?_, ?_, ?_⟩
  · intro h
    simp only [_estimate_cassandra_cluster_zonal]
    split <;> rfl
  · intro h
    simp only [_estimate_cassandra_cluster_zonal]
    split <;> first
      | rfl
      | (split <;> rfl)
  · intro plan hplan cl hcl
    obtain ⟨hle, hz⟩ := cassandra_zonal_shape ext raw_count raw_annual_cost
      inst drive desires working_set zones_per_region copies_per_region
      allow_gp2 required_cluster_size plan hplan
    rw [hz] at hcl
    rw [List.eq_of_mem_replicate hcl]
    exact ⟨⟨Nat.clog 2 raw_count, rfl⟩, hle⟩
  · intro h
    rcases hz : _estimate_cassandra_cluster_zonal ext raw_count
      raw_annual_cost inst drive desires working_set zones_per_region
      copies_per_region allow_gp2 required_cluster_size with _ | plan
    · rfl
    · exact absurd (cassandra_zonal_shape ext raw_count raw_annual_cost inst
        drive desires working_set zones_per_region copies_per_region allow_gp2
        required_cluster_size plan hz).1 (not_le.mpr h)

/-- Claim C4 witness: the 4-core sample instance is inadmissible for the
store estimator, a gp3 drive is inadmissible, a raw count of 33 is rejected,
and a raw count of 3 on an 8-core shape yields a plan of 4-node
(power-of-two) zonal clusters. -/
theorem cassandra_admissibility_witness :
    _estimate_cassandra_cluster_zonal sample_cass_externals 4 0
      sample_instance sample_gp2 sample_desires (1/10) 3 3 true none = none ∧
    _estimate_cassandra_cluster_zonal sample_cass_externals 4 0
      sample_reference sample_gp3 sample_desires (1/10) 3 3 true none = none ∧
    _estimate_cassandra_cluster_zonal sample_cass_externals 33 0
      sample_reference sample_gp2 sample_desires (1/10) 3 3 true none = none ∧
    ∀ plan,
      _estimate_cassandra_cluster_zonal sample_cass_externals 3 0
          sample_reference sample_gp2 sample_desires (1/10) 3 3 true none
        = some plan →
      ∀ cl ∈ plan.candidate_clusters.zonal,
        (∃ k, cl.count = 2 ^ k) ∧ cl.count ≤ 32 := by
  refine ⟨?_, ?_, ?_, ?_⟩
  · exact (cassandra_admissibility sample_cass_externals 4 0 sample_instance
      sample_gp2 sample_desires (1/10) 3 3 true none).2.1 (by decide)
  · exact (cassandra_admissibility sample_cass_externals 4 0 sample_reference
      sample_gp3 sample_desires (1/10) 3 3 true none).1 (by decide)
  · refine (cassandra_admissibility sample_cass_externals 33 0
      sample_reference sample_gp2 sample_desires (1/10) 3 3 true none).2.2.2 ?_
    have h1 : (5 : ℕ) < Nat.clog 2 33 :=
      (Nat.pow_lt_iff_lt_clog (by norm_num)).mp (by norm_num)
    calc (32 : ℕ) = 2 ^ 5 := by norm_num
    _ < 2 ^ Nat.clog 2 33 := Nat.pow_lt_pow_right (by norm_num) h1
  · exact (cassandra_admissibility sample_cass_externals 3 0 sample_reference
      sample_gp2 sample_desires (1/10) 3 3 true none).2.2.1

/-- Claim C5: the disk IO budget the store estimator hands to the zone sizer
is readAmplification x ceil(0.10 x per-zone read rate), with
readAmplification = 1 + ceil(log10(sstables)) and
sstables = max(1, nodeSizeMB / 160); the requested disk space is multiplied
by 4 before being passed to the zone sizer. -/
theorem cassandra_disk_io_budget (desires : CapacityDesires)
    (zones_per_region : ℕ) (requirement : CapacityRequirement) :
    (∀ node_size_gib : ℕ,
      (cassandra_zone_args
          (Int.floor (desires.query_pattern.estimated_read_per_second.mid
            / zones_per_region)) requirement).required_disk_ios node_size_gib
        = ((1 + Nat.clog 10 (max 1 (node_size_gib * 1024 / 160)) : ℕ) : ℤ)
          * Int.ceil ((1/10 : ℚ)
            * ((Int.floor (desires.query_pattern.estimated_read_per_second.mid
                / zones_per_region) : ℤ) : ℚ))) ∧
    (∀ x : ℚ,
      (cassandra_zone_args
          (Int.floor (desires.query_pattern.estimated_read_per_second.mid
            / zones_per_region)) requirement).required_disk_space x
        = x * 4) := by
  exact ⟨fun node_size_gib => rfl, fun x => rfl⟩

/-- Helper: round-half-to-even of a non-negative value is non-negative. -/
lemma roundHalfEven_nonneg (x : ℚ) (h : 0 ≤ x) : 0 ≤ roundHalfEven x := by
  have hf : (0 : ℤ) ≤ Int.floor x := Int.floor_nonneg.mpr h
  simp only [roundHalfEven]
  split
  · exact hf
  split
  · omega
  split
  · exact hf
  · omega

/-- Helper: round-half-to-even of a value at least 1 is positive. -/
lemma roundHalfEven_pos (x : ℚ) (h : 1 ≤ x) : 0 < roundHalfEven x := by
  have hf : (1 : ℤ) ≤ Int.floor x := Int.le_floor.mpr (by exact_mod_cast h)
  simp only [roundHalfEven]
  split
  · omega
  split
  · omega
  split
  · omega
  · omega

/-- Helper: 4-decimal rounding preserves non-negativity. -/
lemma round4_nonneg (x : ℚ) (h : 0 ≤ x) : 0 ≤ round4 x := by
  unfold round4
  have := roundHalfEven_nonneg (x * 10000) (by positivity)
  positivity

/-- Helper: 4-decimal rounding of zero is zero. -/
lemma round4_zero : round4 0 = 0 := by
  norm_num [round4, roundHalfEven]

/-- Helper: 4-decimal rounding of a value at least 1/10000 is positive. -/
lemma round4_pos (x : ℚ) (h : 1/10000 ≤ x) : 0 < round4 x := by
  unfold round4
  have hp : 0 < roundHalfEven (x * 10000) :=
    roundHalfEven_pos (x * 10000) (by linarith)
  positivity

/-- Helper: the cost component of the regret map is the rounded raw cost
regret. -/
lemma regret_cost_def (regret_params : CapacityRegretParameters)
    (optimal_plan proposed_plan : CapacityPlan) :
    (regret regret_params optimal_plan proposed_plan).cost
      = round4 (cost_regret_raw regret_params optimal_plan proposed_plan) :=
  rfl

/-- Helper: the disk component of the regret map is the rounded raw disk
regret. -/
lemma regret_disk_def (regret_params : CapacityRegretParameters)
    (optimal_plan proposed_plan : CapacityPlan) :
    (regret regret_params optimal_plan proposed_plan).disk_space
      = round4 (disk_regret_raw regret_params optimal_plan proposed_plan) :=
  rfl

/-- Claim C7 counterexample: two plans of equal cost where the proposed one
has strictly less total disk, yet the returned map is {cost: 0,
disk_space: 0}: the positive exact disk regret (1/100000) is rounded to 0
by the 4-decimal rounding, contradicting "disk_space: positive". -/
theorem regret_small_disk_gap_scores_zero :
    (sample_plan (1 - 1/100000)).candidate_clusters.total_annual_cost
        = (sample_plan 1).candidate_clusters.total_annual_cost ∧
    plan_requirement_disk (sample_plan (1 - 1/100000))
        < plan_requirement_disk (sample_plan 1) ∧
    0 < disk_regret_raw sample_regret_params (sample_plan 1)
        (sample_plan (1 - 1/100000)) ∧
    (regret sample_regret_params (sample_plan 1)
        (sample_plan (1 - 1/100000))).disk_space = 0 := by
  refine ⟨rfl,
    by norm_num [plan_requirement_disk, sample_plan, sample_requirement,
      certain_float],
    by norm_num [disk_regret_raw, plan_requirement_disk, sample_plan,
      sample_requirement, sample_regret_params, certain_float], ?_⟩
  norm_num [regret, round4, roundHalfEven, disk_regret_raw,
    plan_requirement_disk, sample_plan, sample_requirement,
    sample_regret_params, certain_float]

/-- Claim C7 (amended): with non-negative provision costs the regret
components are never negative; with a positive cost exponent identical
plans score 0 on both components; and for equal-cost plans where the
proposed plan has strictly less total disk, the result is {cost: 0,
disk_space: positive} provided the exact disk regret is at least 0.0001
(smaller values are rounded to 0 by the 4-decimal rounding). -/
theorem regret_components (regret_params : CapacityRegretParameters)
    (optimal_plan proposed_plan : CapacityPlan)
    (hover : 0 ≤ regret_params.over_provision_cost)
    (hunder : 0 ≤ regret_params.under_provision_cost)
    (hce : 1 ≤ regret_params.cost_exponent) :
    (0 ≤ (regret regret_params optimal_plan proposed_plan).cost ∧
     0 ≤ (regret regret_params optimal_plan proposed_plan).disk_space) ∧
    (proposed_plan = optimal_plan →
      (regret regret_params optimal_plan proposed_plan).cost = 0 ∧
      (regret regret_params optimal_plan proposed_plan).disk_space = 0) ∧
    (proposed_plan.candidate_clusters.total_annual_cost
        = optimal_plan.candidate_clusters.total_annual_cost →
     plan_requirement_disk proposed_plan < plan_requirement_disk optimal_plan →
     1/10000 ≤ disk_regret_raw regret_params optimal_plan proposed_plan →
      (regret regret_params optimal_plan proposed_plan).cost = 0 ∧
      0 < (regret regret_params optimal_plan proposed_plan).disk_space) := by
  have hcraw : 0 ≤ cost_regret_raw regret_params optimal_plan proposed_plan := by
    simp only [cost_regret_raw]
    split
    · rename_i hle
      exact pow_nonneg (mul_nonneg (by linarith) hover) _
    · rename_i hlt
      exact pow_nonneg (mul_nonneg (by linarith [not_le.mp hlt]) hunder) _
  have hdraw : 0 ≤ disk_regret_raw regret_params optimal_plan proposed_plan := by
    simp only [disk_regret_raw]
    split
    · rename_i hlt
      exact pow_nonneg (mul_nonneg (by linarith) hunder) _
    · exact le_refl 0
  refine ⟨⟨?_, ?_⟩, ?_, ?_⟩
  · rw [regret_cost_def]
    exact round4_nonneg _ hcraw
  · rw [regret_disk_def]
    exact round4_nonneg _ hdraw
  · intro hpo
    subst hpo
    constructor
    · rw [regret_cost_def]
      have hzero : cost_regret_raw regret_params proposed_plan proposed_plan
          = 0 := by
        simp only [cost_regret_raw]
        rw [if_pos le_rfl, sub_self, zero_mul, zero_pow (by omega)]
      rw [hzero, round4_zero]
    · rw [regret_disk_def]
      have hzero : disk_regret_raw regret_params proposed_plan proposed_plan
          = 0 := by
        simp only [disk_regret_raw]
        rw [if_neg (lt_irrefl _)]
      rw [hzero, round4_zero]
  · intro hceq hdlt hdge
    constructor
    · rw [regret_cost_def]
      have hzero : cost_regret_raw regret_params optimal_plan proposed_plan
          = 0 := by
        simp only [cost_regret_raw]
        rw [if_pos (le_of_eq hceq.symm), hceq, sub_self, zero_mul,
          zero_pow (by omega)]
      rw [hzero, round4_zero]
    · rw [regret_disk_def]
      exact round4_pos _ hdge

/-- Claim C7 witness: for the default-style parameters and plans of equal
cost with a one-GiB disk gap, the amended properties hold concretely. -/
theorem regret_components_witness :
    (0 ≤ (regret sample_regret_params (sample_plan 1) (sample_plan 0)).cost ∧
     0 ≤ (regret sample_regret_params (sample_plan 1)
        (sample_plan 0)).disk_space) ∧
    (sample_plan 0 = sample_plan 1 →
      (regret sample_regret_params (sample_plan 1) (sample_plan 0)).cost = 0 ∧
      (regret sample_regret_params (sample_plan 1)
          (sample_plan 0)).disk_space = 0) ∧
    ((sample_plan 0).candidate_clusters.total_annual_cost
        = (sample_plan 1).candidate_clusters.total_annual_cost →
     plan_requirement_disk (sample_plan 0)
        < plan_requirement_disk (sample_plan 1) →
     1/10000 ≤ disk_regret_raw sample_regret_params (sample_plan 1)
        (sample_plan 0) →
      (regret sample_regret_params (sample_plan 1) (sample_plan 0)).cost = 0 ∧
      0 < (regret sample_regret_params (sample_plan 1)
          (sample_plan 0)).disk_space) :=
  regret_components sample_regret_params (sample_plan 1) (sample_plan 0)
    (by decide) (by decide) (by decide)

/-- Claim C10: both regret components are the raw regrets rounded to 4
decimal places, and for a concrete pair of non-identical plans whose exact
disk regret is positive but below 0.00005 the returned component is 0. -/
theorem regret_four_decimal_rounding :
    (∀ (regret_params : CapacityRegretParameters)
       (optimal_plan proposed_plan : CapacityPlan),
      regret regret_params optimal_plan proposed_plan
        = { cost := round4 (cost_regret_raw regret_params optimal_plan
              proposed_plan),
            disk_space := round4 (disk_regret_raw regret_params optimal_plan
              proposed_plan) }) ∧
    (0 < disk_regret_raw sample_regret_params (sample_plan 1)
        (sample_plan (1 - 1/100000)) ∧
     disk_regret_raw sample_regret_params (sample_plan 1)
        (sample_plan (1 - 1/100000)) < 1/20000 ∧
     (regret sample_regret_params (sample_plan 1)
        (sample_plan (1 - 1/100000))).disk_space = 0) := by
  refine ⟨fun regret_params optimal_plan proposed_plan => rfl,
    by norm_num [disk_regret_raw, plan_requirement_disk, sample_plan,
      sample_requirement, sample_regret_params, certain_float],
    by norm_num [disk_regret_raw, plan_requirement_disk, sample_plan,
      sample_requirement, sample_regret_params, certain_float], ?_⟩
  norm_num [regret, round4, roundHalfEven, disk_regret_raw,
    plan_requirement_disk, sample_plan, sample_requirement,
    sample_regret_params, certain_float]

end SCM
